import Mathlib

/-!
Shallow embedding of the Tapo C225 PTZ controller and multi-camera manager
(src/tapo_c225_controller.py, src/tapo_multi_camera.py).

Device interactions are modelled as an explicit trace of events; the fallible
pytapo client is modelled by a `Device` record giving the outcome of each call
the embedded code performs.  Python exceptions become `Except` values; a
try/except block becomes a `match` on the outcome.
-/

namespace TapoSpec

/-- One observable interaction with the device-control client (pytapo). -/
inductive Event where
  | getPrivacy
  | setPrivacyOff
  | sleep (seconds : Nat)
  | moveMotor (x y : Int)
  | moveMotorStep (angle : Int)
  | setPreset (pid : String)
  | savePresetCmd (name : String)
  | calibrateMotor
  deriving DecidableEq, Repr

/-- Outcome of the getPrivacyMode call: it may raise, or report whether the
string field enabled equals on. -/
inductive PrivacyRead where
  | ok (enabled : Bool)
  | err
  deriving DecidableEq, Repr

/-- Behaviour of one camera's pytapo client: what each call the embedded code
performs will do.  setPrivacyFails says whether the setPrivacyMode(False)
write raises; time.sleep is modelled as never raising. -/
structure Device where
  privacyRead : PrivacyRead
  setPrivacyFails : Bool
  setPresetFails : String → Bool
  moveMotorFails : Bool

/-- TapoC225Controller.ensure_privacy_mode_off: inside one try/except, read
the privacy state and, if the field is on, write privacy off and sleep 1
second.  An exception from either call is caught and False is returned; in
particular when the privacy-off write raises, the sleep after it is skipped.
Returns the emitted trace and the boolean result. -/
def ensure_privacy_mode_off (d : Device) : List Event × Bool :=
  match d.privacyRead with
  | PrivacyRead.err => ([Event.getPrivacy], false)
  | PrivacyRead.ok true =>
      if d.setPrivacyFails then
        ([Event.getPrivacy, Event.setPrivacyOff], false)
      else
        ([Event.getPrivacy, Event.setPrivacyOff, Event.sleep 1], true)
  | PrivacyRead.ok false => ([Event.getPrivacy], true)

/-- TapoC225Controller.move: run the privacy guard (result ignored), then issue
moveMotor; the moveMotor call itself may raise. -/
def move (d : Device) (x y : Int) : List Event × Except String Unit :=
  ((ensure_privacy_mode_off d).1 ++ [Event.moveMotor x y],
   if d.moveMotorFails then Except.error "DeviceError" else Except.ok ())

/-- TapoC225Controller.move_step: raise ValueError when the angle is outside
0..359, before any device contact; otherwise run the privacy guard and issue
moveMotorStep. -/
def move_step (d : Device) (angle : Int) : List Event × Except String Unit :=
  if 0 ≤ angle ∧ angle < 360 then
    ((ensure_privacy_mode_off d).1 ++ [Event.moveMotorStep angle], Except.ok ())
  else
    ([], Except.error "ValueError: angle must be between 0 and 359")

/-- TapoC225Controller.goto_preset: run the privacy guard, then issue
setPreset, which may raise (the exception propagates to the caller). -/
def goto_preset (d : Device) (pid : String) : List Event × Except String Unit :=
  ((ensure_privacy_mode_off d).1 ++ [Event.setPreset pid],
   if d.setPresetFails pid then Except.error pid else Except.ok ())

/-- TapoC225Controller.save_preset: run the privacy guard, then issue
savePreset. -/
def save_preset (d : Device) (name : String) : List Event :=
  (ensure_privacy_mode_off d).1 ++ [Event.savePresetCmd name]

/-- TapoC225Controller.calibrate: issue calibrateMotor directly; the method
does not run the privacy guard. -/
def calibrate (_d : Device) : List Event :=
  [Event.calibrateMotor]

/-- A trace whose first event is the privacy read and whose final event is the
given device command: the privacy check happens before the command is issued. -/
def guardedTrace (tr : List Event) (cmd : Event) : Prop :=
  tr.head? = some Event.getPrivacy ∧ tr.getLast? = some cmd

instance (tr : List Event) (cmd : Event) : Decidable (guardedTrace tr cmd) :=
  inferInstanceAs (Decidable (_ ∧ _))

/-- Sample device: privacy mode reported off, every call succeeds. -/
def devOff : Device := ⟨PrivacyRead.ok false, false, fun _ => false, false⟩

/-- Sample device: privacy mode reported on, every call succeeds. -/
def devOn : Device := ⟨PrivacyRead.ok true, false, fun _ => false, false⟩

/-- Sample device: privacy mode reported on, the privacy-off write raises,
the motor calls succeed. -/
def devOnWriteFail : Device := ⟨PrivacyRead.ok true, true, fun _ => false, false⟩

/-- Sample device: the privacy-state read raises; the motor calls succeed. -/
def devErr : Device := ⟨PrivacyRead.err, false, fun _ => false, false⟩

/-- Sample device: privacy off, setPreset on preset id 1 raises. -/
def devFail1 : Device := ⟨PrivacyRead.ok false, false, fun p => p == "1", false⟩

theorem ensure_head (d : Device) :
    (ensure_privacy_mode_off d).1.head? = some Event.getPrivacy := by
  cases h : d.privacyRead with
  | ok b =>
      cases b <;> cases hw : d.setPrivacyFails <;>
        simp [ensure_privacy_mode_off, h, hw]
  | err => simp [ensure_privacy_mode_off, h]

theorem guarded_ensure (d : Device) (c : Event) :
    guardedTrace ((ensure_privacy_mode_off d).1 ++ [c]) c := by
  constructor
  · cases h : d.privacyRead with
    | ok b =>
        cases b <;> cases hw : d.setPrivacyFails <;>
          simp [ensure_privacy_mode_off, h, hw]
    | err => simp [ensure_privacy_mode_off, h]
  · simp

/-- Claim C1 (amended): move, goto_preset, save_preset, and move_step with a
valid angle all run the privacy check first and issue the device command last,
but calibrate issues calibrateMotor without ever reading the privacy state. -/
theorem c1_guard_coverage (d : Device) (x y angle : Int) (pid name : String) :
    guardedTrace (move d x y).1 (Event.moveMotor x y) ∧
    guardedTrace (goto_preset d pid).1 (Event.setPreset pid) ∧
    guardedTrace (save_preset d name) (Event.savePresetCmd name) ∧
    (0 ≤ angle → angle < 360 →
      guardedTrace (move_step d angle).1 (Event.moveMotorStep angle)) ∧
    Event.getPrivacy ∉ calibrate d := by
  refine ⟨guarded_ensure d _, guarded_ensure d _, guarded_ensure d _,
    fun h0 h360 => ?_, by simp [calibrate]⟩
  have hstep : (move_step d angle).1 =
      (ensure_privacy_mode_off d).1 ++ [Event.moveMotorStep angle] := by
    simp [move_step, h0, h360]
  rw [hstep]
  exact guarded_ensure d _

/-- Claim C1 (counterexample): even on a device whose privacy mode is on,
calibrate issues the calibrateMotor device command without invoking the
privacy check (no getPrivacy event at all), refuting that every
positional/preset-recall operation passes through the guard. -/
theorem c1_calibrate_unguarded :
    devOn.privacyRead = PrivacyRead.ok true ∧
    Event.calibrateMotor ∈ calibrate devOn ∧
    Event.getPrivacy ∉ calibrate devOn := by
  refine ⟨rfl, ?_, ?_⟩ <;> decide

/-- Claim C1 (witness): the amended theorem applied at angle 90. -/
theorem c1_witness :
    guardedTrace (move_step devOn 90).1 (Event.moveMotorStep 90) :=
  (c1_guard_coverage devOn 1 2 90 "3" "spot").2.2.2.1 (by decide) (by decide)

/-- Claim C5: move_step raises the validation error exactly when the angle is
below 0 or at least 360, and then emits no device event at all; for an
in-range angle it succeeds and the step command is issued. -/
theorem c5_move_step_validation (d : Device) (angle : Int) :
    ((move_step d angle).2 =
        Except.error "ValueError: angle must be between 0 and 359" ↔
      (angle < 0 ∨ 360 ≤ angle)) ∧
    (angle < 0 ∨ 360 ≤ angle → (move_step d angle).1 = []) ∧
    (0 ≤ angle → angle < 360 →
      (move_step d angle).2 = Except.ok () ∧
      (move_step d angle).1.getLast? = some (Event.moveMotorStep angle)) := by
  by_cases hc : 0 ≤ angle ∧ angle < 360
  · refine ⟨?_, ?_, ?_⟩
    · simp only [move_step, if_pos hc]
      constructor
      · intro h
        exact absurd h (by simp)
      · intro h
        omega
    · intro h
      omega
    · intro h0 h360
      simp [move_step, if_pos hc]
  · refine ⟨?_, ?_, ?_⟩
    · simp only [move_step, if_neg hc]
      constructor
      · intro _
        omega
      · intro _
        trivial
    · intro _
      simp [move_step, if_neg hc]
    · intro h0 h360
      exact absurd ⟨h0, h360⟩ hc

/-- Claim C5 (witness): the theorem applied at angles 360, -1, 0 and 359. -/
theorem c5_witness :
    (move_step devOff 360).2 =
        Except.error "ValueError: angle must be between 0 and 359" ∧
    (move_step devOff 360).1 = [] ∧
    (move_step devOff (-1)).2 =
        Except.error "ValueError: angle must be between 0 and 359" ∧
    (move_step devOff (-1)).1 = [] ∧
    (move_step devOff 0).2 = Except.ok () ∧
    (move_step devOff 359).2 = Except.ok () :=
  ⟨(c5_move_step_validation devOff 360).1.mpr (by omega),
   (c5_move_step_validation devOff 360).2.1 (by omega),
   (c5_move_step_validation devOff (-1)).1.mpr (by omega),
   (c5_move_step_validation devOff (-1)).2.1 (by omega),
   ((c5_move_step_validation devOff 0).2.2 (by omega) (by omega)).1,
   ((c5_move_step_validation devOff 359).2.2 (by omega) (by omega)).1⟩

/-- Claim C6 (counterexample): on a device that reports privacy mode enabled
but whose privacy-off write raises, the positional command's trace is read,
write-attempt, command with no settle delay at all — the claimed exact order
[read, write, delay, command] does not hold for this execution. -/
theorem c6_write_failure_skips_delay :
    devOnWriteFail.privacyRead = PrivacyRead.ok true ∧
    (move devOnWriteFail 1 2).1 =
      [Event.getPrivacy, Event.setPrivacyOff, Event.moveMotor 1 2] ∧
    Event.sleep 1 ∉ (move devOnWriteFail 1 2).1 := by
  refine ⟨rfl, rfl, ?_⟩
  decide

/-- Claim C6 (amended): with privacy reported on and a successful privacy-off
write, a positional command's trace is exactly read, write, 1-second settle
delay, command; when the write itself raises, the exception is caught, the
delay is skipped, and the command follows the write attempt directly; with
privacy reported off, the trace is exactly read then command, with no write
and no delay. -/
theorem c6_privacy_sequencing (d : Device) (x y : Int) (pid : String) :
    (d.privacyRead = PrivacyRead.ok true → d.setPrivacyFails = false →
      (move d x y).1 =
          [Event.getPrivacy, Event.setPrivacyOff, Event.sleep 1,
           Event.moveMotor x y] ∧
      (goto_preset d pid).1 =
          [Event.getPrivacy, Event.setPrivacyOff, Event.sleep 1,
           Event.setPreset pid]) ∧
    (d.privacyRead = PrivacyRead.ok true → d.setPrivacyFails = true →
      (move d x y).1 =
          [Event.getPrivacy, Event.setPrivacyOff, Event.moveMotor x y] ∧
      (goto_preset d pid).1 =
          [Event.getPrivacy, Event.setPrivacyOff, Event.setPreset pid]) ∧
    (d.privacyRead = PrivacyRead.ok false →
      (move d x y).1 = [Event.getPrivacy, Event.moveMotor x y] ∧
      (goto_preset d pid).1 = [Event.getPrivacy, Event.setPreset pid]) := by
  refine ⟨fun h hw => ?_, fun h hw => ?_, fun h => ?_⟩
  · simp [move, goto_preset, ensure_privacy_mode_off, h, hw]
  · simp [move, goto_preset, ensure_privacy_mode_off, h, hw]
  · simp [move, goto_preset, ensure_privacy_mode_off, h]

/-- Claim C6 (witness): the theorem applied to the privacy-on device with a
working write, the privacy-on device whose write raises, and the privacy-off
device. -/
theorem c6_witness :
    (move devOn 1 2).1 =
        [Event.getPrivacy, Event.setPrivacyOff, Event.sleep 1,
         Event.moveMotor 1 2] ∧
    (move devOnWriteFail 1 2).1 =
        [Event.getPrivacy, Event.setPrivacyOff, Event.moveMotor 1 2] ∧
    (move devOff 1 2).1 = [Event.getPrivacy, Event.moveMotor 1 2] :=
  ⟨((c6_privacy_sequencing devOn 1 2 "1").1 rfl rfl).1,
   ((c6_privacy_sequencing devOnWriteFail 1 2 "1").2.1 rfl rfl).1,
   ((c6_privacy_sequencing devOff 1 2 "1").2.2 rfl).1⟩

/-- Claim C7: when the privacy-state read raises, the guard swallows the
failure (returns false instead of raising) and the positional command is
still issued; the call's overall outcome then depends only on the positional
command itself, so a read failure and a command failure are distinct. -/
theorem c7_read_failure_optimistic (d : Device) (x y : Int) (pid : String)
    (h : d.privacyRead = PrivacyRead.err) :
    (ensure_privacy_mode_off d).2 = false ∧
    (move d x y).1 = [Event.getPrivacy, Event.moveMotor x y] ∧
    ((move d x y).2 = Except.ok () ↔ d.moveMotorFails = false) ∧
    (goto_preset d pid).1 = [Event.getPrivacy, Event.setPreset pid] ∧
    ((goto_preset d pid).2 = Except.ok () ↔ d.setPresetFails pid = false) := by
  refine ⟨?_, ?_, ?_, ?_, ?_⟩
  · simp [ensure_privacy_mode_off, h]
  · simp [move, ensure_privacy_mode_off, h]
  · cases hm : d.moveMotorFails <;> simp [move, hm]
  · simp [goto_preset, ensure_privacy_mode_off, h]
  · cases hs : d.setPresetFails pid <;> simp [goto_preset, hs]

/-- Claim C7 (witness): the theorem applied to the sample device whose
privacy read raises. -/
theorem c7_witness :
    (ensure_privacy_mode_off devErr).2 = false ∧
    (move devErr 3 4).1 = [Event.getPrivacy, Event.moveMotor 3 4] :=
  ⟨(c7_read_failure_optimistic devErr 3 4 "1" rfl).1,
   (c7_read_failure_optimistic devErr 3 4 "1" rfl).2.1⟩

/-! Multi-camera manager (src/tapo_multi_camera.py).  Python dicts are
modelled as association lists with Python's update semantics: assignment to
an existing key replaces the value in place, otherwise the pair is appended. -/

/-- Python dict assignment d[k] = v on an association list. -/
def dictInsert {α : Type} (k : String) (v : α) :
    List (String × α) → List (String × α)
  | [] => [(k, v)]
  | (k2, v2) :: rest =>
      if k2 = k then (k, v) :: rest else (k2, v2) :: dictInsert k v rest

/-- Python dict lookup d[k] / d.get(k) on an association list. -/
def dictLookup {α : Type} (k : String) : List (String × α) → Option α
  | [] => none
  | (k2, v2) :: rest => if k2 = k then some v2 else dictLookup k rest

theorem dictLookup_dictInsert {α : Type} (k : String) (v : α)
    (d : List (String × α)) : dictLookup k (dictInsert k v d) = some v := by
  induction d with
  | nil => simp [dictInsert, dictLookup]
  | cons hd tl ih =>
      by_cases hk : hd.1 = k
      · simp [dictInsert, dictLookup, hk]
      · simpa [dictInsert, dictLookup, hk] using ih

theorem mem_keys_dictInsert {α : Type} (k : String) (v : α)
    (d : List (String × α)) : k ∈ (dictInsert k v d).map Prod.fst := by
  induction d with
  | nil => simp [dictInsert]
  | cons hd tl ih =>
      by_cases hk : hd.1 = k
      · simp [dictInsert, hk]
      · simp only [dictInsert, if_neg hk, List.map_cons, List.mem_cons]
        exact Or.inr ih

/-- One registered camera as the manager sees it: connection parameters plus
the outcome of a getPresets call on its session. -/
structure CamSession where
  host : String
  user : String
  password : String
  getPresetsResult : Except String (List (String × String))

/-- TapoMultiCameraManager.get_all_presets: iterate over every registered
camera; on success record its presets, on an exception record an empty
mapping — either way the camera gets an entry. -/
def get_all_presets (cams : List (String × CamSession)) :
    List (String × List (String × String)) :=
  cams.map fun c =>
    (c.1,
     match c.2.getPresetsResult with
     | Except.ok ps => ps
     | Except.error _ => [])

/-- Claim C2: the batch preset collection returns one entry per registered
camera id, with the key list equal to the registry's key list, no matter
which sessions fail. -/
theorem c2_batch_covers_all_ids (cams : List (String × CamSession)) :
    (get_all_presets cams).map Prod.fst = cams.map Prod.fst ∧
    (get_all_presets cams).length = cams.length := by
  induction cams with
  | nil => simp [get_all_presets]
  | cons hd tl ih =>
      simp only [get_all_presets, List.map_cons, List.length_cons] at ih ⊢
      exact ⟨by rw [ih.1], by rw [ih.2]⟩

/-- TapoMultiCameraManager.create_scene: load the scenes document (missing
file means an empty document), assign scenes[name] = mapping, write back. -/
def create_scene (fs : Option (List (String × List (String × String))))
    (name : String) (m : List (String × String)) :
    List (String × List (String × String)) :=
  dictInsert name m (fs.getD [])

/-- TapoMultiCameraManager.list_scenes: the scene names of the document. -/
def list_scenes (doc : List (String × List (String × String))) :
    List String :=
  doc.map Prod.fst

/-- Claim C3: after create_scene, reading the persisted document back yields
for that scene name exactly the mapping that was stored, and the name shows
up in list_scenes — the persistence round-trip. -/
theorem c3_scene_roundtrip
    (fs : Option (List (String × List (String × String))))
    (s : String) (m : List (String × String)) :
    dictLookup s (create_scene fs s m) = some m ∧
    s ∈ list_scenes (create_scene fs s m) :=
  ⟨dictLookup_dictInsert s m (fs.getD []),
   mem_keys_dictInsert s m (fs.getD [])⟩

/-- A gotoPreset dispatch to one camera during scene application. -/
inductive SceneEvent where
  | gotoPresetEv (cid pid : String)
  deriving DecidableEq, Repr

/-- Per-camera outcome recorded while applying a scene. -/
inductive ApplyEntry where
  | moved (cid pid : String)
  | deviceError (cid : String)
  | notConnected (cid : String)
  deriving DecidableEq, Repr

/-- The loop body of TapoMultiCameraManager.apply_scene: for each pair in the
scene mapping, dispatch gotoPreset when the camera is registered (an
exception is caught and recorded for that camera only), otherwise record the
camera as not connected; the loop always continues to the next pair. -/
def apply_scene_go (reg : List String) (fails : String → Bool) :
    List (String × String) → List SceneEvent × List ApplyEntry
  | [] => ([], [])
  | (cid, pid) :: rest =>
      let r := apply_scene_go reg fails rest
      if cid ∈ reg then
        (SceneEvent.gotoPresetEv cid pid :: r.1,
         (if fails cid then ApplyEntry.deviceError cid
          else ApplyEntry.moved cid pid) :: r.2)
      else
        (r.1, ApplyEntry.notConnected cid :: r.2)

/-- TapoMultiCameraManager.apply_scene: load the scenes document and the named
scene (returning early when either is missing), then run the dispatch loop. -/
def apply_scene (fs : Option (List (String × List (String × String))))
    (name : String) (reg : List String) (fails : String → Bool) :
    Option (List SceneEvent × List ApplyEntry) :=
  match fs with
  | none => none
  | some doc =>
      match dictLookup name doc with
      | none => none
      | some m => some (apply_scene_go reg fails m)

/-- Claim C4: scene application produces one report entry per scene pair and
dispatches gotoPreset to exactly the registered cameras of the scene, whatever
the per-device failures are; in particular a scene over A, B, C applied with
only A and C registered dispatches to A and C with their mapped presets and
records B as not connected, never failing the whole apply. -/
theorem c4_scene_partial_failure :
    (∀ (reg : List String) (fails : String → Bool)
        (m : List (String × String)),
      (apply_scene_go reg fails m).2.length = m.length ∧
      (apply_scene_go reg fails m).1 =
        (m.filter fun x => decide (x.1 ∈ reg)).map
          fun x => SceneEvent.gotoPresetEv x.1 x.2) ∧
    (∀ fails : String → Bool,
      apply_scene (some [("S", [("A", "1"), ("B", "2"), ("C", "3")])]) "S"
          ["A", "C"] fails =
        some ([SceneEvent.gotoPresetEv "A" "1", SceneEvent.gotoPresetEv "C" "3"],
          [(if fails "A" then ApplyEntry.deviceError "A"
            else ApplyEntry.moved "A" "1"),
           ApplyEntry.notConnected "B",
           (if fails "C" then ApplyEntry.deviceError "C"
            else ApplyEntry.moved "C" "3")])) := by
  constructor
  · intro reg fails m
    induction m with
    | nil => simp [apply_scene_go]
    | cons hd tl ih =>
        obtain ⟨cid, pid⟩ := hd
        by_cases hr : cid ∈ reg
        · by_cases hf : fails cid = true <;>
            simp [apply_scene_go, hr, hf, ih.1, ih.2]
        · simp [apply_scene_go, hr, ih.1, ih.2]
  · intro fails
    simp [apply_scene, dictLookup, apply_scene_go]

/-- The state a TapoC225Controller carries that the manager's registry and
config persistence observe. -/
structure Controller where
  host : String
  user : String
  password : String
  deriving DecidableEq, Repr

/-- TapoMultiCameraManager.add_camera: build a controller from the arguments
and try to connect; on success assign self.cameras[camera_id] = controller
(a plain dict assignment, with no duplicate check) and return true, on
failure leave the registry untouched and return false. -/
def add_camera (cams : List (String × Controller))
    (cid host user password : String) (connectOk : Bool) :
    List (String × Controller) × Bool :=
  if connectOk then
    (dictInsert cid (Controller.mk host user password) cams, true)
  else
    (cams, false)

/-- Claim C8 (counterexample): adding a camera under an id that is already
registered succeeds (returns true, no DuplicateDeviceError) and silently
replaces the stored session with the new one. -/
theorem c8_duplicate_add_overwrites :
    (add_camera [("cam1", Controller.mk "10.0.0.1" "admin" "pw1")] "cam1"
        "10.0.0.2" "admin" "pw2" true).2 = true ∧
    dictLookup "cam1"
        (add_camera [("cam1", Controller.mk "10.0.0.1" "admin" "pw1")] "cam1"
          "10.0.0.2" "admin" "pw2" true).1 =
      some (Controller.mk "10.0.0.2" "admin" "pw2") ∧
    Controller.mk "10.0.0.2" "admin" "pw2" ≠
      Controller.mk "10.0.0.1" "admin" "pw1" := by
  refine ⟨rfl, rfl, ?_⟩
  decide

/-- Claim C8 (amended): a duplicate add is not rejected — when the new
connection succeeds the registry afterwards maps the id to the new session
(silently overwriting any existing one) and the call reports success; when
the connection fails the registry is unchanged and the call reports
failure. -/
theorem c8_add_camera_behavior (cams : List (String × Controller))
    (cid host user password : String) :
    (add_camera cams cid host user password true).2 = true ∧
    dictLookup cid (add_camera cams cid host user password true).1 =
      some (Controller.mk host user password) ∧
    (add_camera cams cid host user password false).1 = cams ∧
    (add_camera cams cid host user password false).2 = false := by
  refine ⟨rfl, ?_, rfl, rfl⟩
  simpa [add_camera] using
    dictLookup_dictInsert cid (Controller.mk host user password) cams

/-- TapoMultiCameraManager.save_config: per camera id the written document
holds the host and the user; the password is deliberately not stored. -/
def save_config (cams : List (String × Controller)) :
    List (String × String × String) :=
  cams.map fun c => (c.1, c.2.host, c.2.user)

/-- Claim C10: the saved configuration is determined by the ids, hosts and
users alone — two registries agreeing on those but with different passwords
write the identical document — and every registry entry contributes exactly
its id, host and user. -/
theorem c10_password_noninterference :
    (∀ cams1 cams2 : List (String × Controller),
      cams1.map Prod.fst = cams2.map Prod.fst →
      (cams1.map fun c => c.2.host) = (cams2.map fun c => c.2.host) →
      (cams1.map fun c => c.2.user) = (cams2.map fun c => c.2.user) →
      save_config cams1 = save_config cams2) ∧
    (∀ (cams : List (String × Controller)) (cid hst usr pw : String),
      (cid, Controller.mk hst usr pw) ∈ cams →
      (cid, hst, usr) ∈ save_config cams) := by
  constructor
  · intro cams1
    induction cams1 with
    | nil =>
        intro cams2 h1 _ _
        cases cams2 with
        | nil => rfl
        | cons b t => simp at h1
    | cons a t ih =>
        intro cams2 h1 h2 h3
        cases cams2 with
        | nil => simp at h1
        | cons b t2 =>
            simp only [List.map_cons, List.cons.injEq] at h1 h2 h3
            simp only [save_config, List.map_cons, List.cons.injEq]
            refine ⟨?_, ih t2 h1.2 h2.2 h3.2⟩
            simp [h1.1, h2.1, h3.1]
  · intro cams cid hst usr pw hmem
    exact List.mem_map_of_mem _ hmem

/-- Claim C10 (witness): the theorem applied to two singleton registries that
differ only in the stored password. -/
theorem c10_witness :
    save_config [("cam1", Controller.mk "10.0.0.1" "admin" "secretA")] =
      save_config [("cam1", Controller.mk "10.0.0.1" "admin" "secretB")] :=
  c10_password_noninterference.1 _ _ rfl rfl rfl

/-! Patrol loop (TapoC225Controller.start_patrol): an unbounded while-loop
whose inner for-loop walks the preset list; it is embedded with explicit fuel
counting the number of completed outer-loop iterations.  A device exception
during goto_preset is not caught (only KeyboardInterrupt is), so it ends the
loop and propagates to the caller. -/

/-- One iteration of the inner for-loop over the preset list: goto_preset,
then the dwell sleep; an exception from goto_preset aborts the remaining
presets and carries the failing preset id. -/
def patrolCycle (d : Device) (interval : Nat) :
    List String → List Event × Except String Unit
  | [] => ([], Except.ok ())
  | p :: rest =>
      let g := goto_preset d p
      match g.2 with
      | Except.error e => (g.1, Except.error e)
      | Except.ok _ =>
          let r := patrolCycle d interval rest
          (g.1 ++ Event.sleep interval :: r.1, r.2)

/-- TapoC225Controller.start_patrol, unrolled for a given number of outer
while-loop iterations; an error in a cycle stops the loop and surfaces. -/
def start_patrol (d : Device) (ids : List String) (interval : Nat) :
    Nat → List Event × Except String Unit
  | 0 => ([], Except.ok ())
  | Nat.succ n =>
      let c := patrolCycle d interval ids
      match c.2 with
      | Except.error e => (c.1, Except.error e)
      | Except.ok _ =>
          let r := start_patrol d ids interval n
          (c.1 ++ r.1, r.2)

/-- The full trace of one successful patrol step at a preset: the goto
dispatch followed by the dwell sleep. -/
def fullStep (d : Device) (interval : Nat) (p : String) : List Event :=
  (goto_preset d p).1 ++ [Event.sleep interval]

theorem patrolCycle_ok (d : Device) (interval : Nat) (l : List String)
    (h : ∀ p ∈ l, d.setPresetFails p = false) :
    patrolCycle d interval l =
      ((l.map (fullStep d interval)).flatten, Except.ok ()) := by
  induction l with
  | nil => simp [patrolCycle]
  | cons p rest ih =>
      have hp : d.setPresetFails p = false := h p (by simp)
      have hr := ih fun q hq => h q (by simp [hq])
      simp [patrolCycle, goto_preset, hp, hr, fullStep, List.append_assoc]

theorem patrolCycle_fail (d : Device) (interval : Nat)
    (pre post : List String) (p : String)
    (hpre : ∀ q ∈ pre, d.setPresetFails q = false)
    (hp : d.setPresetFails p = true) :
    patrolCycle d interval (pre ++ p :: post) =
      ((pre.map (fullStep d interval)).flatten ++ (goto_preset d p).1,
       Except.error p) := by
  induction pre with
  | nil => simp [patrolCycle, goto_preset, hp]
  | cons q rest ih =>
      have hq : d.setPresetFails q = false := hpre q (by simp)
      have hr := ih fun r hrm => hpre r (by simp [hrm])
      simp [patrolCycle, goto_preset, hq, hr, fullStep, List.append_assoc]

/-- Claim C9: with no device error the patrol repeats the preset sequence in
cyclic order indefinitely, one goto followed by one dwell per preset, wrapping
after the last (the trace of n whole cycles is n copies of the per-cycle
trace); and when the device errors at some preset, the trace stops right at
that failed goto for every remaining fuel — the preset is not retried, no
further gotoPreset is issued — and the error surfaces to the caller. -/
theorem c9_patrol_order_and_error :
    (∀ (d : Device) (ids : List String) (interval : Nat),
      (∀ p ∈ ids, d.setPresetFails p = false) →
      ∀ n, start_patrol d ids interval n =
        ((List.replicate n ((ids.map (fullStep d interval)).flatten)).flatten,
         Except.ok ())) ∧
    (∀ (d : Device) (pre post : List String) (p : String) (interval : Nat),
      (∀ q ∈ pre, d.setPresetFails q = false) →
      d.setPresetFails p = true →
      ∀ n, start_patrol d (pre ++ p :: post) interval (n + 1) =
        ((pre.map (fullStep d interval)).flatten ++ (goto_preset d p).1,
         Except.error p)) := by
  constructor
  · intro d ids interval h n
    induction n with
    | zero => simp [start_patrol]
    | succ n ih =>
        simp [start_patrol, patrolCycle_ok d interval ids h, ih,
          List.replicate_succ]
  · intro d pre post p interval hpre hp n
    simp [start_patrol, patrolCycle_fail d interval pre post p hpre hp]

/-- Claim C9 (witness): two complete cycles over presets 1 and 2 on a healthy
device, and a device failing at preset 1 stops with that error no matter the
remaining fuel. -/
theorem c9_witness :
    start_patrol devOff ["1", "2"] 10 2 =
      ((List.replicate 2 ((["1", "2"].map (fullStep devOff 10)).flatten)).flatten,
       Except.ok ()) ∧
    start_patrol devFail1 ["1", "2"] 10 5 =
      ((([] : List String).map (fullStep devFail1 10)).flatten ++
        (goto_preset devFail1 "1").1, Except.error "1") :=
  ⟨c9_patrol_order_and_error.1 devOff ["1", "2"] 10 (by decide) 2,
   c9_patrol_order_and_error.2 devFail1 [] ["2"] "1" 10
     (fun q hq => absurd hq (List.not_mem_nil q)) (by decide) 4⟩

end TapoSpec
